import Mathlib

/-!
Verification of the vili admin HTTP server (package `server`, file
`server.go`) against its natural-language specification.

The embedding below translates the server package into Lean: the HTTP
response is explicit state, handlers are functions from that state (plus
their collaborator inputs) to a new state and an optional returned error,
and the error translator `httpErrorHandler` is a function over a closed
union of the four concrete error shapes its type switch distinguishes.
External collaborators (echo's response primitives, net/http's `Error`
writer, the graceful listener, the expvar registry) are modelled from
their documented contracts; pieces of this repository that are outside
the given sources (the `errors` and `log` packages, the `ErrorResponse`
writer of the server package) are modelled from the specification and
marked as such in their doc comments.
-/

namespace Vili

/-- HTTP response state as observed by the handlers: whether the status line
has been committed, the status code, the content-type header and the body
bytes written so far. -/
structure Response where
  committed : Bool := false
  status : Nat := 200
  contentType : String := ""
  body : String := ""
deriving Repr, DecidableEq

/-- The fresh response state a handler starts from. -/
def Response.init : Response := {}

/-- Models echo's `Response.WriteHeader`: committing a response fixes its
status; on an already committed response the call is ignored (echo only logs
a warning). -/
def Response.writeHeader (r : Response) (code : Nat) : Response :=
  if r.committed then r else { r with status := code, committed := true }

/-- Models setting a response header: effective only before the response is
committed; headers already sent on the wire can no longer change. -/
def Response.setContentType (r : Response) (ct : String) : Response :=
  if r.committed then r else { r with contentType := ct }

/-- Models echo's `Response.Write`: an uncommitted response is first
committed with status 200, then the bytes are appended to the body. Bytes
are appended even when the response was already committed. -/
def Response.write (r : Response) (b : String) : Response :=
  let r0 := if r.committed then r else { r with status := 200, committed := true }
  { r0 with body := r0.body ++ b }

/-- One character of Go `%q` quoting: escape the double quote, the backslash
and the newline; other characters of variable names pass through. -/
def goQuoteChar (c : Char) : String :=
  if c = '"' then "\\\""
  else if c = '\\' then "\\\\"
  else if c = '\n' then "\\n"
  else String.singleton c

/-- Models Go `fmt` `%q` string quoting for the characters appearing in
published variable names. -/
def goQuote (s : String) : String :=
  "\"" ++ String.join (s.data.map goQuoteChar) ++ "\""

/-- Models the structured status object embedded in a kubernetes
`StatusError`, the upstream orchestration API's status. -/
structure UpstreamStatus where
  code : Nat
  reason : String
  message : String
deriving Repr, DecidableEq

/-- Modelled from the spec: vili's `errors.ErrorResponse` (the `errors`
package is not among the sources) — a self-describing domain error carrying
its own status code and the fields of its JSON body. -/
structure ErrorResponse where
  status : Nat
  name : String
  message : String
deriving Repr, DecidableEq

/-- Models `echo.HTTPError`: a numeric status code and a human message. -/
structure HTTPError where
  code : Nat
  message : String
deriving Repr, DecidableEq

/-- The closed union of concrete error shapes distinguished by the type
switch in `httpErrorHandler`, in the order the switch lists them. -/
inductive Err where
  | statusError (s : UpstreamStatus)
  | errorResponse (e : ErrorResponse)
  | httpError (h : HTTPError)
  | unknown (message : String)
deriving Repr, DecidableEq

/-- Models `err.Error()`: the error's message string. For `echo.HTTPError`
this follows the spec's description of the category as carrying a human
message. -/
def Err.errString : Err → String
  | .statusError s => s.message
  | .errorResponse e => e.message
  | .httpError h => h.message
  | .unknown m => m

/-- Models the JSON marshalling of the upstream status object, written to the
response verbatim. -/
def renderStatus (s : UpstreamStatus) : String :=
  "\x7b\"code\": " ++ toString s.code ++ ", \"reason\": " ++ goQuote s.reason
    ++ ", \"message\": " ++ goQuote s.message ++ "\x7d"

/-- Modelled from the spec: the JSON body of a domain `ErrorResponse`,
written as-is from the error's own fields. -/
def renderErrorResponse (e : ErrorResponse) : String :=
  "\x7b\"status\": " ++ toString e.status ++ ", \"error\": " ++ goQuote e.name
    ++ ", \"message\": " ++ goQuote e.message ++ "\x7d"

/-- Models `net/http` `StatusText` for the codes this server uses. -/
def statusText : Nat → String
  | 400 => "Bad Request"
  | 404 => "Not Found"
  | 405 => "Method Not Allowed"
  | 500 => "Internal Server Error"
  | 501 => "Not Implemented"
  | _ => ""

/-- Content type echo attaches to JSON responses. -/
def jsonContentType : String := "application/json; charset=UTF-8"

/-- Content type `net/http` `Error` attaches to plain-text error bodies. -/
def textContentType : String := "text/plain; charset=utf-8"

/-- Models echo `Context.JSON`: set the JSON content type, commit the given
status, and write the serialized payload. -/
def contextJSON (r : Response) (code : Nat) (payload : String) : Response :=
  ((r.setContentType jsonContentType).writeHeader code).write payload

/-- Models `net/http` `Error`: plain-text content type, the given status,
and the message followed by a newline. -/
def httpErrorWrite (r : Response) (msg : String) (code : Nat) : Response :=
  ((r.setContentType textContentType).writeHeader code).write (msg ++ "\n")

/-- Models echo `Context.NoContent`: commit the given status with no body. -/
def noContent (r : Response) (code : Nat) : Response :=
  r.writeHeader code

/-- Modelled from the spec: vili's `errors.NotFound` — the standardized
not-found error response; the empty argument selects the standard message. -/
def notFound (message : String) : ErrorResponse :=
  { status := 404, name := "NotFoundError",
    message := if message = "" then "Not Found" else message }

/-- Modelled from the spec: vili's `errors.MethodNotAllowed` — the
standardized method-not-allowed error response. -/
def methodNotAllowed (message : String) : ErrorResponse :=
  { status := 405, name := "MethodNotAllowedError",
    message := if message = "" then "Method Not Allowed" else message }

/-- Modelled from the spec: the server package's `ErrorResponse` writer
(defined in a server file outside the given sources) — delegates entirely to
the error's own status code and JSON body, unaltered. -/
def errorResponseWrite (r : Response) (e : ErrorResponse) : Response :=
  contextJSON r e.status (renderErrorResponse e)

/-- The shared tail of `httpErrorHandler` after the type switch: `msg` starts
as the standard text of the code chosen by the switch; an `echo.HTTPError`
then substitutes its own code and error string; the debug flag substitutes
the original error string; and the final plain-text write is guarded by the
committed flag. -/
def statusSwitchTail (debug : Bool) (err : Err) (code0 : Nat) (r : Response) :
    Response :=
  let msg := statusText code0
  let pair := match err with
    | .httpError he => (he.code, Err.errString (.httpError he))
    | _ => (code0, msg)
  let msg1 := if debug then err.errString else pair.2
  if !r.committed then httpErrorWrite r msg1 pair.1 else r

/-- Embedding of `Server.httpErrorHandler`: a type switch over the four
concrete error shapes. The `StatusError`, `ErrorResponse` and the 404/405
`HTTPError` branches return directly; the remaining paths fall through to
the shared tail. (The default branch also logs the error at error severity,
an effect not observable in the response.) -/
def httpErrorHandler (debug : Bool) (err : Err) (r : Response) : Response :=
  match err with
  | .statusError s => contextJSON r 400 (renderStatus s)
  | .errorResponse e => errorResponseWrite r e
  | .httpError h =>
      if h.code = 404 then contextJSON r 404 (renderErrorResponse (notFound ""))
      else if h.code = 405 then
        contextJSON r 405 (renderErrorResponse (methodNotAllowed ""))
      else statusSwitchTail debug err h.code r
  | .unknown _ => statusSwitchTail debug err 500 r

/-- Embedding of the handler produced by `makeHealthCheck`, as a function of
the configured callback (`none` models a nil callback; a callback returns
`some msg` to model a non-nil error). The result is the response state plus
the error value the handler returns to the framework. When the callback
fails, the source constructs a 500 `HTTPError` but discards it — the value
is not returned — so control falls through to the `NoContent` write exactly
as on success. -/
def makeHealthCheck (hcFunc : Option (Unit → Option String)) (r : Response) :
    Response × Option Err :=
  match hcFunc with
  | none => (r, some (.httpError ⟨501, "Not Implemented"⟩))
  | some f =>
      match f () with
      | some e =>
          let _discarded := Err.httpError ⟨500, e⟩
          (noContent r 204, none)
      | none => (noContent r 204, none)

/-- One step of the `expvar.Do` callback in `statsHandler`: write the `",\n"`
separator unless this is the first entry, then the quoted key, a colon and
the value's rendering. The boolean is the `first` flag. -/
def statsStep (acc : Response × Bool) (kv : String × String) : Response × Bool :=
  let r := if !acc.2 then acc.1.write ",\n" else acc.1
  (r.write (goQuote kv.1 ++ ": " ++ kv.2), false)

/-- Embedding of `statsHandler` over a registry snapshot — the published
(name, rendered value) pairs in the registry's own iteration order: set the
content type, write the JSON object incrementally, and return a nil error. -/
def statsHandler (reg : List (String × String)) (r : Response) :
    Response × Option Err :=
  let r1 := r.setContentType "application/json; charset=utf-8"
  let r2 := r1.write "\x7b\n"
  let r3 := (reg.foldl statsStep (r2, true)).1
  (r3.write "\n\x7d\n", none)

/-- Log levels the process-wide logger accepts. Modelled from the spec: the
`log` package is not among the sources. -/
inductive LogLevel where
  | lvlDebug
  | lvlInfo
  | lvlWarning
  | lvlError
  | lvlFatal
deriving Repr, DecidableEq

/-- Modelled from the spec: parsing a log-level name. -/
def parseLevel : String → Option LogLevel
  | "debug" => some .lvlDebug
  | "info" => some .lvlInfo
  | "warning" => some .lvlWarning
  | "error" => some .lvlError
  | "fatal" => some .lvlFatal
  | _ => none

/-- Modelled from the spec: the parse-error message `log.SetLevel` reports
for an unknown level name. -/
def parseErrMsg (name : String) : String :=
  "not a valid log level: " ++ goQuote name

/-- Modelled from the spec: `log.SetLevel` — parse the name and apply it to
the process-wide logger level, or leave the level unchanged and report the
parse error. -/
def setLevel (lvl : LogLevel) (name : String) : LogLevel × Option String :=
  match parseLevel name with
  | some l => (l, none)
  | none => (lvl, some (parseErrMsg name))

/-- Embedding of `logHandler`: apply the `:level` path segment to the
process-wide logger; a parse failure is returned as a 400 `HTTPError`
carrying the parse-error message, success returns a nil error. -/
def logHandler (lvl : LogLevel) (level : String) : LogLevel × Option Err :=
  let res := setLevel lvl level
  match res.2 with
  | some e => (res.1, some (.httpError ⟨400, e⟩))
  | none => (res.1, none)

/-- A handler that returns without committing anything is answered with
status 200 and an empty body by the transport. -/
def finalize (r : Response) : Response :=
  if r.committed then r else { r with status := 200, committed := true }

/-- The full observable outcome of `POST /admin/logging/:level`: the handler
runs on a fresh response; a returned error goes through the error
translator before the response is finalized. -/
def serveLogLevel (debug : Bool) (lvl : LogLevel) (level : String) :
    LogLevel × Response :=
  let res := logHandler lvl level
  match res.2 with
  | none => (res.1, finalize Response.init)
  | some e => (res.1, finalize (httpErrorHandler debug e Response.init))

/-- Embedding of `Config`: the startup parameters. The timeout is a
`time.Duration` in nanoseconds; the health check returns `some msg` to model
a non-nil error; the shutdown callback and the middleware list are carried
only by presence and count, their effects being outside the claims. -/
structure Config where
  name : String
  addr : String
  timeout : Nat
  healthCheck : Option (Unit → Option String) := none
  hasShutdownFunc : Bool := false
  middlewareCount : Nat := 0

/-- Models the graceful production listener installed by `Start`: its bind
address and drain timeout (nanoseconds). -/
structure GracefulServer where
  addr : String
  timeout : Nat
deriving Repr, DecidableEq

/-- Models the ephemeral `httptest` listener installed by `StartTest`. -/
structure TestServer where
  url : String
deriving Repr, DecidableEq

/-- Embedding of `Server`: the echo instance's debug flag, the config, and
the two listener pointers — `none` models a nil pointer. -/
structure Server where
  debug : Bool
  c : Config
  g : Option GracefulServer
  t : Option TestServer

/-- Embedding of `New`: the routes and middleware are installed on the echo
instance (captured by the handler embeddings above); both listener pointers
start nil. -/
def New (config : Config) : Server :=
  { debug := false, c := config, g := none, t := none }

/-- Embedding of `Start` (the blocking listen itself is not modelled):
installs the graceful listener configured with the server's address and the
configured drain timeout. -/
def Server.start (s : Server) : Server :=
  { s with g := some { addr := s.c.addr, timeout := s.c.timeout } }

/-- Embedding of `StartTest`: installs the ephemeral listener (whose base
URL is chosen by the transport and passed in here) and returns that URL. -/
def Server.startTest (s : Server) (url : String) : Server × String :=
  ({ s with t := some { url := url } }, url)

/-- The observable outcome of a `Stop` call: a nil-pointer dereference
panic, or a shutdown begun with the given drain deadline in nanoseconds. -/
inductive StopOutcome where
  | panicked
  | stopped (drainDeadline : Nat)
deriving Repr, DecidableEq

/-- Models `tylerb/graceful` `Server.Stop`: the argument replaces the
listener's configured drain timeout, and shutdown begins with that
deadline. -/
def GracefulServer.stopWith (g : GracefulServer) (timeout : Nat) :
    GracefulServer × Nat :=
  ({ g with timeout := timeout }, timeout)

/-- The constant `Server.Stop` passes: `time.Second * 5` in nanoseconds. -/
def fiveSeconds : Nat := 5000000000

/-- Embedding of `Server.Stop`: dereference the graceful listener pointer —
nil unless `Start` ran — and stop it with the 5-second deadline. -/
def Server.stop (s : Server) : StopOutcome :=
  match s.g with
  | none => .panicked
  | some g => .stopped (g.stopWith fiveSeconds).2

/-- The observable outcome of a `StopTest` call: a nil-pointer dereference
panic, or the ephemeral listener closed. -/
inductive StopTestOutcome where
  | panicked
  | closed
deriving Repr, DecidableEq

/-- Embedding of `StopTest`: dereference the test listener pointer — nil
unless `StartTest` ran — and close it. -/
def Server.stopTest (s : Server) : StopTestOutcome :=
  match s.t with
  | none => .panicked
  | some _ => .closed

/-- Spec-side predicate: the error is an UpstreamAPIError. -/
def isUpstreamAPIError : Err → Bool
  | .statusError _ => true
  | _ => false

/-- Spec-side predicate: the error is a DomainErrorResponse. -/
def isDomainErrorResponse : Err → Bool
  | .errorResponse _ => true
  | _ => false

/-- Spec-side predicate: the error is a FrameworkHTTPError. -/
def isFrameworkHTTPError : Err → Bool
  | .httpError _ => true
  | _ => false

/-- Spec-side predicate: the error is an UnknownError. -/
def isUnknownError : Err → Bool
  | .unknown _ => true
  | _ => false

/-- Spec-side renderer for the UpstreamAPIError category. -/
def renderUpstreamBranch (r : Response) : Err → Response
  | .statusError s => contextJSON r 400 (renderStatus s)
  | _ => r

/-- Spec-side renderer for the DomainErrorResponse category. -/
def renderDomainBranch (r : Response) : Err → Response
  | .errorResponse e => errorResponseWrite r e
  | _ => r

/-- Spec-side renderer for the FrameworkHTTPError category. -/
def renderFrameworkBranch (debug : Bool) (r : Response) : Err → Response
  | .httpError h =>
      if h.code = 404 then contextJSON r 404 (renderErrorResponse (notFound ""))
      else if h.code = 405 then
        contextJSON r 405 (renderErrorResponse (methodNotAllowed ""))
      else statusSwitchTail debug (.httpError h) h.code r
  | _ => r

/-- Spec-side renderer for the UnknownError category. -/
def renderUnknownBranch (debug : Bool) (r : Response) (e : Err) : Response :=
  statusSwitchTail debug e 500 r

/-- Spec-side dispatcher following the words of spec section 4.2: the
category predicates are evaluated top-to-bottom in the fixed priority order
and the first matching category's renderer is applied. -/
def specTranslate (debug : Bool) (e : Err) (r : Response) : Response :=
  if isUpstreamAPIError e then renderUpstreamBranch r e
  else if isDomainErrorResponse e then renderDomainBranch r e
  else if isFrameworkHTTPError e then renderFrameworkBranch debug r e
  else renderUnknownBranch debug r e

/-- The text of one stats entry: the quoted key, a colon, and the value. -/
def entryText (kv : String × String) : String :=
  goQuote kv.1 ++ ": " ++ kv.2

/-- Spec-side joining of the stats entries, separated by a comma and a
newline, one entry per registered variable in registry order. -/
def joinEntries : List (String × String) → String
  | [] => ""
  | [kv] => entryText kv
  | kv :: rest => entryText kv ++ ",\n" ++ joinEntries rest

/-- Spec-side rendering of the whole stats body: a single JSON object with
exactly one entry per registered variable, in the registry's iteration
order, closed by a trailing newline. -/
def specStatsBody (reg : List (String × String)) : String :=
  "\x7b\n" ++ joinEntries reg ++ "\n\x7d\n"

/-- The entries written after the first one, each preceded by the
separator; used to describe the `foldl` state after the first entry. -/
def sepEntries : List (String × String) → String
  | [] => ""
  | kv :: rest => ",\n" ++ entryText kv ++ sepEntries rest

end Vili

namespace Vili

/-- Writing to an already committed response only appends the bytes. -/
theorem write_of_committed (r : Response) (h : r.committed = true) (b : String) :
    r.write b = { r with body := r.body ++ b } := by
  simp [Response.write, h]

/-- Joining all entries equals the first entry followed by the
separator-prefixed rest. -/
theorem joinEntries_eq_sep (kv : String × String) (rest : List (String × String)) :
    joinEntries (kv :: rest) = entryText kv ++ sepEntries rest := by
  induction rest generalizing kv with
  | nil => simp [joinEntries, sepEntries, String.append_empty]
  | cons kv2 rest2 ih =>
      simp [joinEntries, sepEntries, ih kv2, String.append_assoc]

/-- The stats fold, once past the first entry, appends the
separator-prefixed entries to a committed response. -/
theorem statsFold_sep (reg : List (String × String)) :
    ∀ r : Response, r.committed = true →
      (reg.foldl statsStep (r, false)).1 = { r with body := r.body ++ sepEntries reg } := by
  induction reg with
  | nil =>
      intro r h
      simp [sepEntries, String.append_empty]
  | cons kv rest ih =>
      intro r h
      have hstep : statsStep (r, false) kv =
          ({ r with body := r.body ++ (",\n" ++ entryText kv) }, false) := by
        simp [statsStep, Response.write, h, entryText, String.append_assoc]
      have h2 : ({ r with body := r.body ++ (",\n" ++ entryText kv) } : Response).committed
          = true := h
      rw [List.foldl_cons, hstep, ih _ h2]
      simp [sepEntries, String.append_assoc]

/-- The whole stats fold appends the joined entries to a committed
response. -/
theorem statsFold_join (reg : List (String × String)) (r : Response)
    (h : r.committed = true) :
    (reg.foldl statsStep (r, true)).1 = { r with body := r.body ++ joinEntries reg } := by
  cases reg with
  | nil => simp [joinEntries, String.append_empty]
  | cons kv rest =>
      have hstep : statsStep (r, true) kv = ({ r with body := r.body ++ entryText kv }, false) := by
        simp [statsStep, Response.write, h, entryText]
      have h2 : ({ r with body := r.body ++ entryText kv } : Response).committed = true := h
      rw [List.foldl_cons, hstep, statsFold_sep rest _ h2, joinEntries_eq_sep]
      simp [String.append_assoc]

end Vili

namespace Vili

/-- Claim C1 (code bug): the spec's intended behavior is that a failing
health-check callback answers `GET /admin/health` with 500 and the failure
message, but the source constructs that 500 error and discards it, so for
every non-nil callback that returns a non-nil error the endpoint actually
answers 204 No Content with an empty body and a nil handler error. -/
theorem claim_C1_bug (f : Unit → Option String) (m : String) (hf : f () = some m) :
    makeHealthCheck (some f) Response.init =
      ({ committed := true, status := 204, contentType := "", body := "" }, none) := by
  simp [makeHealthCheck, hf, noContent, Response.writeHeader, Response.init]

/-- Claim C1, witnessed at a callback that always fails with message
"boom": the endpoint still answers 204 with an empty body. -/
theorem claim_C1_checked :
    makeHealthCheck (some (fun _ => some "boom")) Response.init
      = ({ committed := true, status := 204, contentType := "", body := "" }, none) :=
  claim_C1_bug (fun _ => some "boom") "boom" rfl

/-- Claim C2, counterexample: for a FrameworkHTTPError with code 500 and
message "boom", with the debug flag unset, the translator's body is the
error's own message line, not the standard text of status 500 as the claim
states. -/
theorem claim_C2_cex :
    (httpErrorHandler false (Err.httpError ⟨500, "boom"⟩) Response.init).status = 500
    ∧ (httpErrorHandler false (Err.httpError ⟨500, "boom"⟩) Response.init).body = "boom\n"
    ∧ "boom\n" ≠ statusText 500
    ∧ "boom\n" ≠ statusText 500 ++ "\n" := by
  exact ⟨rfl, rfl, by decide, by decide⟩

/-- Claim C2 as amended: for every FrameworkHTTPError whose code is neither
404 nor 405, on an uncommitted response the translator emits status equal to
that code with the error's own message (newline-terminated, as a plain-text
line) as the body — identically whether the debug flag is set or unset; the
standard status text is computed but always overwritten. -/
theorem claim_C2 (d : Bool) (h : HTTPError) (r : Response)
    (h404 : h.code ≠ 404) (h405 : h.code ≠ 405) (hc : r.committed = false) :
    httpErrorHandler d (Err.httpError h) r =
      { committed := true, status := h.code, contentType := textContentType,
        body := r.body ++ (h.message ++ "\n") } := by
  simp [httpErrorHandler, statusSwitchTail, httpErrorWrite, Err.errString,
        Response.setContentType, Response.writeHeader, Response.write, h404, h405, hc]

/-- Claim C2 as amended, witnessed at code 500, message "boom", debug unset,
on the fresh response. -/
theorem claim_C2_checked :
    httpErrorHandler false (Err.httpError ⟨500, "boom"⟩) Response.init
      = { committed := true, status := 500, contentType := textContentType,
          body := Response.init.body ++ ("boom" ++ "\n") } :=
  claim_C2 false ⟨500, "boom"⟩ Response.init (by decide) (by decide) rfl

/-- Claim C3, counterexample: on a response already committed by the handler,
the UpstreamAPIError branch still appends its JSON body — the translator
does write response bytes there, contradicting the claim that every branch
leaves a committed response unchanged. -/
theorem claim_C3_cex :
    (httpErrorHandler false (Err.statusError ⟨502, "BadGateway", "upstream down"⟩)
        { committed := true, status := 200, contentType := "text/plain", body := "ok" }).body
      ≠ "ok" := by
  decide

/-- Claim C3 as amended: the committed-response guard holds only on the
fallthrough write path — for UnknownError and for FrameworkHTTPError with a
code other than 404/405 a committed response is returned unchanged — while
the UpstreamAPIError, DomainErrorResponse, 404 and 405 branches append
their JSON body to the committed response (the already sent status line and
headers are unchanged). -/
theorem claim_C3 (d : Bool) (r : Response) (hc : r.committed = true) :
    (∀ m, httpErrorHandler d (Err.unknown m) r = r)
    ∧ (∀ h : HTTPError, h.code ≠ 404 → h.code ≠ 405 →
        httpErrorHandler d (Err.httpError h) r = r)
    ∧ (∀ s, httpErrorHandler d (Err.statusError s) r =
        { r with body := r.body ++ renderStatus s })
    ∧ (∀ e, httpErrorHandler d (Err.errorResponse e) r =
        { r with body := r.body ++ renderErrorResponse e })
    ∧ (∀ h : HTTPError, h.code = 404 → httpErrorHandler d (Err.httpError h) r =
        { r with body := r.body ++ renderErrorResponse (notFound "") })
    ∧ (∀ h : HTTPError, h.code = 405 → httpErrorHandler d (Err.httpError h) r =
        { r with body := r.body ++ renderErrorResponse (methodNotAllowed "") }) := by
  refine ⟨fun m => ?_, fun h h404 h405 => ?_, fun s => ?_, fun e => ?_,
      fun h h404 => ?_, fun h h405 => ?_⟩
  · simp [httpErrorHandler, statusSwitchTail, hc]
  · simp [httpErrorHandler, statusSwitchTail, h404, h405, hc]
  · simp [httpErrorHandler, contextJSON, Response.setContentType,
          Response.writeHeader, Response.write, hc]
  · simp [httpErrorHandler, errorResponseWrite, contextJSON, Response.setContentType,
          Response.writeHeader, Response.write, hc]
  · simp [httpErrorHandler, h404, contextJSON, Response.setContentType,
          Response.writeHeader, Response.write, hc]
  · simp [httpErrorHandler, h405, contextJSON, Response.setContentType,
          Response.writeHeader, Response.write, hc]

/-- Claim C3 as amended, witnessed on a committed response: an UnknownError
leaves it unchanged. -/
theorem claim_C3_checked :
    httpErrorHandler false (Err.unknown "oops")
        { committed := true, status := 200, contentType := "t", body := "ok" }
      = { committed := true, status := 200, contentType := "t", body := "ok" } :=
  (claim_C3 false { committed := true, status := 200, contentType := "t", body := "ok" }
      rfl).1 "oops"

end Vili

namespace Vili

/-- Claim C4, counterexample: with a configured shutdown timeout of one
second, Stop after Start initiates shutdown with the constant five-second
drain deadline — not the configured timeout, and not the timeout capped at
five seconds — so the deadline Stop uses is not a function of
Config.Timeout. -/
theorem claim_C4_cex :
    ((New { name := "vili", addr := ":80", timeout := 1000000000 }).start).stop
        = StopOutcome.stopped fiveSeconds
    ∧ fiveSeconds ≠ 1000000000
    ∧ fiveSeconds ≠ min 1000000000 fiveSeconds :=
  ⟨rfl, by decide, by decide⟩

/-- Claim C4 as amended: Stop, valid only after Start, triggers the shutdown
sequence with a constant five-second drain deadline (the graceful listener's
configured timeout is overridden by that constant), independent of
Config.Timeout. -/
theorem claim_C4 (c : Config) : ((New c).start).stop = StopOutcome.stopped fiveSeconds :=
  rfl

/-- Claim C5: every error value matches exactly one of the four categories;
the translator is extensionally the spec's priority dispatcher — category
predicates evaluated in the fixed order UpstreamAPIError,
DomainErrorResponse, FrameworkHTTPError, UnknownError, first match applied —
and in particular an UpstreamAPIError on an uncommitted response is always
answered with status 400 and a body embedding the upstream status object
verbatim. -/
theorem claim_C5 :
    (∀ e : Err,
      ([isUpstreamAPIError e, isDomainErrorResponse e,
        isFrameworkHTTPError e, isUnknownError e].count true) = 1)
    ∧ (∀ (d : Bool) (e : Err) (r : Response),
        httpErrorHandler d e r = specTranslate d e r)
    ∧ (∀ (d : Bool) (s : UpstreamStatus) (r : Response), r.committed = false →
        httpErrorHandler d (Err.statusError s) r =
          { committed := true, status := 400, contentType := jsonContentType,
            body := r.body ++ renderStatus s }) := by
  refine ⟨fun e => ?_, fun d e r => ?_, fun d s r hc => ?_⟩
  · cases e <;> rfl
  · cases e <;> rfl
  · simp [httpErrorHandler, contextJSON, Response.setContentType,
          Response.writeHeader, Response.write, hc]

/-- Claim C5, witnessed at a concrete upstream status on the fresh
response: the answer is status 400 with the status object embedded. -/
theorem claim_C5_checked :
    httpErrorHandler false (Err.statusError ⟨409, "Conflict", "already exists"⟩)
        Response.init
      = { committed := true, status := 400, contentType := jsonContentType,
          body := Response.init.body ++ renderStatus ⟨409, "Conflict", "already exists"⟩ } :=
  claim_C5.2.2 false ⟨409, "Conflict", "already exists"⟩ Response.init rfl

/-- Claim C6: a FrameworkHTTPError carrying code 404 is answered 404 with
the standardized not-found body, and one carrying 405 is answered 405 with
the standardized method-not-allowed body — in both cases independently of
the message on the original error, which does not occur in the result. -/
theorem claim_C6 (d : Bool) (h : HTTPError) (r : Response) (hc : r.committed = false) :
    (h.code = 404 → httpErrorHandler d (Err.httpError h) r =
      { committed := true, status := 404, contentType := jsonContentType,
        body := r.body ++ renderErrorResponse (notFound "") })
    ∧ (h.code = 405 → httpErrorHandler d (Err.httpError h) r =
      { committed := true, status := 405, contentType := jsonContentType,
        body := r.body ++ renderErrorResponse (methodNotAllowed "") }) := by
  constructor
  · intro h404
    simp [httpErrorHandler, h404, contextJSON, Response.setContentType,
          Response.writeHeader, Response.write, hc]
  · intro h405
    simp [httpErrorHandler, h405, contextJSON, Response.setContentType,
          Response.writeHeader, Response.write, hc]

/-- Claim C6, witnessed at a 404 error carrying a message: the answer is the
standardized not-found body, the carried message ignored. -/
theorem claim_C6_checked :
    httpErrorHandler false (Err.httpError ⟨404, "secret detail"⟩) Response.init
      = { committed := true, status := 404, contentType := jsonContentType,
          body := Response.init.body ++ renderErrorResponse (notFound "") } :=
  (claim_C6 false ⟨404, "secret detail"⟩ Response.init rfl).1 rfl

/-- Claim C7: for any registry snapshot, `GET /admin/stats` commits a 200
response whose content type is `application/json; charset=utf-8` and whose
body is a single JSON object with exactly one entry per registered
(name, value) pair, in the registry's own iteration order, terminated by a
trailing newline. -/
theorem claim_C7 (reg : List (String × String)) :
    statsHandler reg Response.init =
      ({ committed := true, status := 200,
         contentType := "application/json; charset=utf-8",
         body := specStatsBody reg }, none) := by
  have hr2 : (Response.init.setContentType "application/json; charset=utf-8").write "\x7b\n"
      = ({ committed := true, status := 200,
           contentType := "application/json; charset=utf-8",
           body := "\x7b\n" } : Response) := rfl
  have h2 : ({ committed := true, status := 200,
               contentType := "application/json; charset=utf-8",
               body := "\x7b\n" } : Response).committed = true := rfl
  simp only [statsHandler, hr2, statsFold_join _ _ h2]
  rw [write_of_committed _ rfl]
  simp [specStatsBody, String.append_assoc]

/-- Claim C9: the stats handler is total and never signals an error — its
returned error component is nil for every registry snapshot and every
response state, so the stats endpoint never enters the error translator. -/
theorem claim_C9 (reg : List (String × String)) (r : Response) :
    (statsHandler reg r).2 = none :=
  rfl

/-- Claim C8: for `POST /admin/logging/:level`, an invalid level name leaves
the logger level unchanged and answers 400 with the parse-error message as
the plain-text body line, while a valid level name is applied to the
process-wide logger and answered 200 with an empty body. -/
theorem claim_C8 (lvl : LogLevel) (level : String) :
    (parseLevel level = none →
      serveLogLevel false lvl level =
        (lvl, { committed := true, status := 400, contentType := textContentType,
                body := parseErrMsg level ++ "\n" }))
    ∧ (∀ l, parseLevel level = some l →
      serveLogLevel false lvl level =
        (l, { committed := true, status := 200, contentType := "", body := "" })) := by
  constructor
  · intro hp
    simp [serveLogLevel, logHandler, setLevel, hp, finalize, httpErrorHandler,
          statusSwitchTail, httpErrorWrite, Err.errString, Response.setContentType,
          Response.writeHeader, Response.write, Response.init, String.empty_append]
  · intro l hp
    simp [serveLogLevel, logHandler, setLevel, hp, finalize, Response.init]

/-- Claim C8, witnessed at the invalid name "nope" and the valid name
"debug". -/
theorem claim_C8_checked :
    serveLogLevel false LogLevel.lvlInfo "nope"
        = (LogLevel.lvlInfo,
           { committed := true, status := 400, contentType := textContentType,
             body := parseErrMsg "nope" ++ "\n" })
    ∧ serveLogLevel false LogLevel.lvlInfo "debug"
        = (LogLevel.lvlDebug,
           { committed := true, status := 200, contentType := "", body := "" }) :=
  ⟨(claim_C8 LogLevel.lvlInfo "nope").1 rfl,
   (claim_C8 LogLevel.lvlInfo "debug").2 LogLevel.lvlDebug rfl⟩

/-- Claim C10: on a server never started with Start — freshly constructed,
or started only via StartTest — Stop dereferences the nil graceful-listener
pointer and panics; symmetrically StopTest panics on a fresh server and on
one started only via Start, and only after StartTest does StopTest actually
close the listener. -/
theorem claim_C10 (c : Config) (url : String) :
    (New c).stop = StopOutcome.panicked
    ∧ (((New c).startTest url).1).stop = StopOutcome.panicked
    ∧ (New c).stopTest = StopTestOutcome.panicked
    ∧ ((New c).start).stopTest = StopTestOutcome.panicked
    ∧ (((New c).startTest url).1).stopTest = StopTestOutcome.closed :=
  ⟨rfl, rfl, rfl, rfl, rfl⟩

end Vili
